import Mathlib

/-!
Verification development for the FHIR ingestion pipeline of
`src/load_fhir.py` (FHIR-Query-Translator repository).

The Python source is shallowly embedded: JSON documents (as produced by
`json.load`) become the inductive type `JVal`; Python dictionary/list access,
truthiness, `uuid.UUID`, `datetime.fromisoformat` and the per-resource
extraction code of `load_fhir_data` become executable Lean functions; the
PostgreSQL store becomes association lists keyed by the row id, with
`INSERT ... ON CONFLICT (id) DO NOTHING` modelled as a keyed no-op insert and
the one-transaction-per-bundle commit discipline modelled by keeping a
working store that replaces the committed store only when the whole bundle
processed without an exception (on an exception the Python process never
calls `conn.commit()`, so closing the connection rolls the transaction back).
Python exceptions become values of the `Err` type carried in `Except`.
-/

/-- A JSON value as produced by Python's `json.load`: JSON null maps to
Python `None`, objects to dicts (string keys, first binding wins), arrays to
lists. -/
inductive JVal where
  | null : JVal
  | bool : Bool → JVal
  | num  : Int → JVal
  | str  : String → JVal
  | arr  : List JVal → JVal
  | obj  : List (String × JVal) → JVal

/-- The Python exceptions the loader can raise, abstracted to the payload the
exception message carries.  `valueError s` models the `ValueError` raised by
`uuid.UUID(s)` on a malformed input: its message describes only the malformed
hex string, no other context.  `keyError k` models `dict[k]` on a missing
key, `indexError` models `list[0]` on an empty list, `typeError` models
`AttributeError`/`TypeError` from using a value of the wrong shape. -/
inductive Err where
  | keyError (k : String) : Err
  | valueError (s : String) : Err
  | indexError : Err
  | typeError (msg : String) : Err
deriving DecidableEq

/-- First binding of key `k` in a Python-dict field list. -/
def lookupField : List (String × JVal) → String → Option JVal
  | [], _ => none
  | (k', v) :: rest, k => if k' == k then some v else lookupField rest k

/-- Python `d[k]`: `KeyError` on a missing key, `TypeError` on a non-dict. -/
def pyIndex (j : JVal) (k : String) : Except Err JVal :=
  match j with
  | .obj fields =>
    match lookupField fields k with
    | some v => .ok v
    | none => .error (.keyError k)
  | _ => .error (.typeError "object is not subscriptable")

/-- Python `d.get(k)`: `None` when the key is absent (and a stored JSON null
is already Python `None`, so absent and null coincide here);
`AttributeError` on a non-dict. -/
def pyGet (j : JVal) (k : String) : Except Err JVal :=
  match j with
  | .obj fields => .ok ((lookupField fields k).getD .null)
  | _ => .error (.typeError "get on non-dict")

/-- Python `d.get(k, default)`: the default is used only when the key is
absent (a stored JSON null is returned as-is). -/
def pyGetD (j : JVal) (k : String) (default : JVal) : Except Err JVal :=
  match j with
  | .obj fields => .ok ((lookupField fields k).getD default)
  | _ => .error (.typeError "get on non-dict")

/-- Python `x[0]` as used on `resource.get(..., [{}])`. -/
def pyIndex0 (j : JVal) : Except Err JVal :=
  match j with
  | .arr (x :: _) => .ok x
  | .arr [] => .error .indexError
  | _ => .error (.typeError "object is not indexable")

/-- A string-typed value, as required by `str.replace` / `str.split` /
`uuid.UUID`; anything else raises (`AttributeError`/`TypeError`). -/
def asStr (j : JVal) : Except Err String :=
  match j with
  | .str s => .ok s
  | _ => .error (.typeError "expected str")

/-- Python truthiness of a JSON-derived value. -/
def truthy : JVal → Bool
  | .null => false
  | .bool b => b
  | .num n => n != 0
  | .str s => s != ""
  | .arr l => !l.isEmpty
  | .obj l => !l.isEmpty

/-- Python's non-overlapping left-to-right `str.replace`, on character lists,
driven by a fuel argument so the recursion is structural (the fuel is the
input length, enough because each step consumes at least one character). -/
def chReplace (pat rep : List Char) : Nat → List Char → List Char
  | 0, s => s
  | _ + 1, [] => []
  | fuel + 1, c :: rest =>
    if pat.isPrefixOf (c :: rest) then
      rep ++ chReplace pat rep fuel ((c :: rest).drop pat.length)
    else
      c :: chReplace pat rep fuel rest

/-- Python `s.replace(pat, rep)` (for the non-empty patterns the loader
uses). -/
def strReplace (s pat rep : String) : String :=
  if pat.toList.isEmpty then s
  else String.mk (chReplace pat.toList rep.toList s.toList.length s.toList)

/-- Python's single-separator `str.split(sep)`, on character lists. -/
def chSplit (sep : Char) : List Char → List (List Char)
  | [] => [[]]
  | c :: rest =>
    let r := chSplit sep rest
    if c == sep then [] :: r
    else
      match r with
      | h :: t => (c :: h) :: t
      | [] => [[c]]

/-- Python `s.split(sep)` for a one-character separator. -/
def strSplit (s : String) (sep : Char) : List String :=
  (chSplit sep s.toList).map String.mk

/-- Hexadecimal digit test (`int(hex, 16)` in `uuid.UUID`). -/
def hexDigit (c : Char) : Bool :=
  c.isDigit || ('a' ≤ c && c ≤ 'f') || ('A' ≤ c && c ≤ 'F')

/-- Canonical 8-4-4-4-12 rendering of 32 hex digits (`str(uuid.UUID(...))`). -/
def formatUUID (h : String) : String :=
  h.take 8 ++ "-" ++ (h.drop 8).take 4 ++ "-" ++ (h.drop 12).take 4 ++ "-" ++
    (h.drop 16).take 4 ++ "-" ++ h.drop 20

/-- Python's `str.strip('{}')`: remove leading and trailing brace characters. -/
def stripBraces (s : String) : String :=
  let l := s.toList.dropWhile (fun c => c == '{' || c == '}')
  String.mk ((l.reverse.dropWhile (fun c => c == '{' || c == '}')).reverse)

/-- Lowercasing, character by character. -/
def strLower (s : String) : String :=
  String.mk (s.toList.map Char.toLower)

/-- Models `str(uuid.UUID(s))`: strip `urn:`/`uuid:` markers, braces and
hyphens, require exactly 32 hex digits, and return the canonical lowercase
hyphenated form; `none` models the `ValueError` raised otherwise. -/
def uuidParse (s : String) : Option String :=
  let h := strReplace (strReplace s "urn:" "") "uuid:" ""
  let h := stripBraces h
  let h := strReplace h "-" ""
  if h.length == 32 && h.toList.all hexDigit then
    some (formatUUID (strLower h))
  else
    none

def allDigits (s : String) : Bool :=
  !s.toList.isEmpty && s.toList.all Char.isDigit

/-- Decimal value of an all-digit string (call sites guard with
`allDigits`). -/
def natOf (s : String) : Nat :=
  s.toList.foldl (fun n c => n * 10 + (c.toNat - '0'.toNat)) 0

/-- `YYYY-MM-DD` date component of an ISO-8601 timestamp. -/
def validYMD (d : String) : Bool :=
  match strSplit d '-' with
  | [y, m, dd] =>
    y.length == 4 && m.length == 2 && dd.length == 2 &&
    allDigits y && allDigits m && allDigits dd &&
    decide (1 ≤ natOf m) && decide (natOf m ≤ 12) &&
    decide (1 ≤ natOf dd) && decide (natOf dd ≤ 31)
  | _ => false

/-- `SS` or `SS.fff`/`SS.ffffff` seconds component. -/
def validSec (s : String) : Bool :=
  match strSplit s '.' with
  | [ss] => ss.length == 2 && allDigits ss && decide (natOf ss ≤ 59)
  | [ss, f] => ss.length == 2 && allDigits ss && decide (natOf ss ≤ 59) &&
      (f.length == 3 || f.length == 6) && allDigits f
  | _ => false

/-- `HH:MM` or `HH:MM:SS[.ffffff]` time-of-day component. -/
def validHMS (t : String) : Bool :=
  match strSplit t ':' with
  | [h, m] => h.length == 2 && m.length == 2 && allDigits h && allDigits m &&
      decide (natOf h ≤ 23) && decide (natOf m ≤ 59)
  | [h, m, s] => h.length == 2 && m.length == 2 && allDigits h && allDigits m &&
      decide (natOf h ≤ 23) && decide (natOf m ≤ 59) && validSec s
  | _ => false

/-- `HH:MM` UTC-offset magnitude. -/
def validOffset (o : String) : Bool :=
  match strSplit o ':' with
  | [h, m] => h.length == 2 && m.length == 2 && allDigits h && allDigits m &&
      decide (natOf h ≤ 23) && decide (natOf m ≤ 59)
  | _ => false

/-- Time-of-day optionally followed by a `+HH:MM` or `-HH:MM` offset. -/
def validTime (t : String) : Bool :=
  match strSplit t '+' with
  | [base, off] => validHMS base && validOffset off
  | [base] =>
    match strSplit base '-' with
    | [b2, off] => validHMS b2 && validOffset off
    | [b2] => validHMS b2
    | _ => false
  | _ => false

/-- Models `datetime.fromisoformat`: a 10-character `YYYY-MM-DD` date,
optionally followed by a one-character separator and a time with an optional
explicit offset.  Success keeps the accepted text (the parsed timestamp is
only stored, never inspected, by the pipeline); `none` models the
`ValueError` the loader catches. -/
def fromisoformat (s : String) : Option String :=
  if s.length < 10 then none
  else
    let d := s.take 10
    let rest := s.drop 10
    if !validYMD d then none
    else if rest.toList.isEmpty then some s
    else if validTime (rest.drop 1) then some s
    else none

/-- `parse_fhir_datetime` (src/load_fhir.py:8-14): falsy input (`None` or
`""`) yields `None`; a string has every `'Z'` replaced by `"+00:00"` and is
handed to `fromisoformat`, whose `ValueError` is caught and turned into
`None`; a truthy non-string raises `AttributeError` on `.replace`, which the
`except ValueError` clause does not catch. -/
def parse_fhir_datetime (dt : JVal) : Except Err (Option String) :=
  if truthy dt = false then .ok none
  else
    match dt with
    | .str s => .ok (fromisoformat (strReplace s "Z" "+00:00"))
    | _ => .error (.typeError "replace on non-str")

example : fromisoformat "2020-01-01T00:00:00+00:00" = some "2020-01-01T00:00:00+00:00" := by decide
example : fromisoformat "1970-01-01" = some "1970-01-01" := by decide
example : fromisoformat "not-a-date" = none := by decide
example : uuidParse "not-a-uuid" = none := by decide
example : uuidParse "" = none := by decide
example : uuidParse "11111111-2222-3333-4444-555555555555" =
    some "11111111-2222-3333-4444-555555555555" := by decide
example : parse_fhir_datetime (.str "2020-01-01T00:00:00Z") =
    .ok (some "2020-01-01T00:00:00+00:00") := rfl

/-- `'/'`-split, last segment: Python `ref.split('/')[-1]` (a split result is
never empty, so `[-1]` never fails). -/
def lastSegment (s : String) : String :=
  (strSplit s '/').getLastD s

/-- `str(uuid.UUID(seg))` for `seg = ref.split('/')[-1]`: the `ValueError`
carries (at most) the malformed segment. -/
def uuidOfSegment (ref : String) : Except Err String :=
  match uuidParse (lastSegment ref) with
  | some u => .ok u
  | none => .error (.valueError (lastSegment ref))

/-- `str(uuid.UUID(j))` where `j` must be a Python string. -/
def uuidOf (j : JVal) : Except Err String := do
  let s ← asStr j
  match uuidParse s with
  | some u => .ok u
  | none => .error (.valueError s)

/-- `str(uuid.UUID(resource['subject']['reference'].split('/')[-1]))` (and
the `resource['patient']` variant): the mandatory patient reference. -/
def mandatoryRef (resource : JVal) (key : String) : Except Err String := do
  let refObj ← pyIndex resource key
  let refVal ← pyIndex refObj "reference"
  let refStr ← asStr refVal
  uuidOfSegment refStr

/-- The guarded optional reference
`str(uuid.UUID(resource.get(key, {}).get('reference', '').split('/')[-1]))
if resource.get(key) else None`: the truthiness guard is evaluated first, a
falsy value (absent key, JSON null, or an empty object) yields `None`. -/
def optionalRef (resource : JVal) (key : String) : Except Err (Option String) := do
  let guard ← pyGet resource key
  if truthy guard then do
    let refObj ← pyGetD resource key (.obj [])
    let refVal ← pyGetD refObj "reference" (.str "")
    let refStr ← asStr refVal
    let u ← uuidOfSegment refStr
    return some u
  else
    return none

/-- Row of the `patients` table (columns of the INSERT at
src/load_fhir.py:102-114).  `birth_date` holds `resource.get('birthDate')`
verbatim: the loader does not pass it through `parse_fhir_datetime`. -/
structure PatientRow where
  id : String
  resource_id : JVal
  gender : JVal
  birth_date : JVal
  deceased_date : Option String
  marital_status : JVal
  data : JVal

/-- Row of the `encounters` table (src/load_fhir.py:118-131); `cls` is the
`class` column. -/
structure EncounterRow where
  id : String
  patient_id : String
  status : JVal
  cls : JVal
  type : JVal
  period_start : Option String
  period_end : Option String
  data : JVal

/-- Row of the `conditions` table (src/load_fhir.py:135-150). -/
structure ConditionRow where
  id : String
  patient_id : String
  encounter_id : Option String
  code : JVal
  clinical_status : JVal
  verification_status : JVal
  onset_date : Option String
  abatement_date : Option String
  data : JVal

/-- Row of the `diagnostic_reports` table (src/load_fhir.py:154-166). -/
structure DiagnosticReportRow where
  id : String
  patient_id : String
  encounter_id : Option String
  status : JVal
  effective_date : Option String
  issued : Option String
  data : JVal

/-- Row of the `document_references` table (src/load_fhir.py:170-182). -/
structure DocumentReferenceRow where
  id : String
  patient_id : String
  encounter_id : Option String
  status : JVal
  type : JVal
  date : Option String
  data : JVal

/-- Row of the `claims` table (src/load_fhir.py:186-199). -/
structure ClaimRow where
  id : String
  patient_id : String
  status : JVal
  type : JVal
  use : JVal
  billable_period_start : Option String
  billable_period_end : Option String
  data : JVal

/-- Row of the `explanations_of_benefit` table (src/load_fhir.py:203-215). -/
structure ExplanationOfBenefitRow where
  id : String
  patient_id : String
  claim_id : Option String
  status : JVal
  type : JVal
  use : JVal
  data : JVal

/-- Patient extraction: the values of the INSERT parameter tuple at
src/load_fhir.py:106-114, evaluated left to right. -/
def extractPatient (resource : JVal) : Except Err PatientRow := do
  let idv ← pyIndex resource "id"
  let id ← uuidOf idv
  let identArr ← pyGetD resource "identifier" (.arr [.obj []])
  let ident0 ← pyIndex0 identArr
  let resource_id ← pyGet ident0 "value"
  let gender ← pyGet resource "gender"
  let birth_date ← pyGet resource "birthDate"
  let deceasedRaw ← pyGet resource "deceasedDateTime"
  let deceased_date ← parse_fhir_datetime deceasedRaw
  let marital_status ← pyGetD resource "maritalStatus" (.obj [])
  return { id, resource_id, gender, birth_date, deceased_date, marital_status,
           data := resource }

/-- Encounter extraction (src/load_fhir.py:122-131). -/
def extractEncounter (resource : JVal) : Except Err EncounterRow := do
  let idv ← pyIndex resource "id"
  let id ← uuidOf idv
  let patient_id ← mandatoryRef resource "subject"
  let status ← pyGet resource "status"
  let cls ← pyGetD resource "class" (.obj [])
  let typeArr ← pyGetD resource "type" (.arr [.obj []])
  let type ← pyIndex0 typeArr
  let period ← pyGetD resource "period" (.obj [])
  let startRaw ← pyGet period "start"
  let period_start ← parse_fhir_datetime startRaw
  let period2 ← pyGetD resource "period" (.obj [])
  let endRaw ← pyGet period2 "end"
  let period_end ← parse_fhir_datetime endRaw
  return { id, patient_id, status, cls, type, period_start, period_end,
           data := resource }

/-- Condition extraction (src/load_fhir.py:140-150). -/
def extractCondition (resource : JVal) : Except Err ConditionRow := do
  let idv ← pyIndex resource "id"
  let id ← uuidOf idv
  let patient_id ← mandatoryRef resource "subject"
  let encounter_id ← optionalRef resource "encounter"
  let code ← pyGetD resource "code" (.obj [])
  let clinical_status ← pyGetD resource "clinicalStatus" (.obj [])
  let verification_status ← pyGetD resource "verificationStatus" (.obj [])
  let onsetRaw ← pyGet resource "onsetDateTime"
  let onset_date ← parse_fhir_datetime onsetRaw
  let abateRaw ← pyGet resource "abatementDateTime"
  let abatement_date ← parse_fhir_datetime abateRaw
  return { id, patient_id, encounter_id, code, clinical_status,
           verification_status, onset_date, abatement_date, data := resource }

/-- DiagnosticReport extraction (src/load_fhir.py:158-166). -/
def extractDiagnosticReport (resource : JVal) : Except Err DiagnosticReportRow := do
  let idv ← pyIndex resource "id"
  let id ← uuidOf idv
  let patient_id ← mandatoryRef resource "subject"
  let encounter_id ← optionalRef resource "encounter"
  let status ← pyGet resource "status"
  let effRaw ← pyGet resource "effectiveDateTime"
  let effective_date ← parse_fhir_datetime effRaw
  let issuedRaw ← pyGet resource "issued"
  let issued ← parse_fhir_datetime issuedRaw
  return { id, patient_id, encounter_id, status, effective_date, issued,
           data := resource }

/-- The DocumentReference encounter reference
(src/load_fhir.py:177): guard `resource.get('context', {}).get('encounter')`,
then `resource.get('context', {}).get('encounter', [{}])[0]
.get('reference', '')`. -/
def contextEncounterRef (resource : JVal) : Except Err (Option String) := do
  let ctx ← pyGetD resource "context" (.obj [])
  let guard ← pyGet ctx "encounter"
  if truthy guard then do
    let ctx2 ← pyGetD resource "context" (.obj [])
    let encArr ← pyGetD ctx2 "encounter" (.arr [.obj []])
    let enc0 ← pyIndex0 encArr
    let refVal ← pyGetD enc0 "reference" (.str "")
    let refStr ← asStr refVal
    let u ← uuidOfSegment refStr
    return some u
  else
    return none

/-- DocumentReference extraction (src/load_fhir.py:174-182). -/
def extractDocumentReference (resource : JVal) : Except Err DocumentReferenceRow := do
  let idv ← pyIndex resource "id"
  let id ← uuidOf idv
  let patient_id ← mandatoryRef resource "subject"
  let encounter_id ← contextEncounterRef resource
  let status ← pyGet resource "status"
  let type ← pyGetD resource "type" (.obj [])
  let dateRaw ← pyGet resource "date"
  let date ← parse_fhir_datetime dateRaw
  return { id, patient_id, encounter_id, status, type, date, data := resource }

/-- Claim extraction (src/load_fhir.py:190-199). -/
def extractClaim (resource : JVal) : Except Err ClaimRow := do
  let idv ← pyIndex resource "id"
  let id ← uuidOf idv
  let patient_id ← mandatoryRef resource "patient"
  let status ← pyGet resource "status"
  let type ← pyGetD resource "type" (.obj [])
  let use ← pyGet resource "use"
  let bp ← pyGetD resource "billablePeriod" (.obj [])
  let startRaw ← pyGet bp "start"
  let billable_period_start ← parse_fhir_datetime startRaw
  let bp2 ← pyGetD resource "billablePeriod" (.obj [])
  let endRaw ← pyGet bp2 "end"
  let billable_period_end ← parse_fhir_datetime endRaw
  return { id, patient_id, status, type, use, billable_period_start,
           billable_period_end, data := resource }

/-- ExplanationOfBenefit extraction (src/load_fhir.py:207-215). -/
def extractExplanationOfBenefit (resource : JVal) :
    Except Err ExplanationOfBenefitRow := do
  let idv ← pyIndex resource "id"
  let id ← uuidOf idv
  let patient_id ← mandatoryRef resource "patient"
  let claim_id ← optionalRef resource "claim"
  let status ← pyGet resource "status"
  let type ← pyGetD resource "type" (.obj [])
  let use ← pyGet resource "use"
  return { id, patient_id, claim_id, status, type, use, data := resource }

/-- Keyed insert modelling `INSERT ... ON CONFLICT (id) DO NOTHING`: if a row
with the key exists the table is unchanged, otherwise the row is appended. -/
def insertRow {α : Type} (t : List (String × α)) (id : String) (r : α) :
    List (String × α) :=
  if t.any (fun p => p.1 == id) then t else t ++ [(id, r)]

/-- Key-presence test in a table. -/
def hasKey {α : Type} (t : List (String × α)) (id : String) : Bool :=
  t.any (fun p => p.1 == id)

/-- Row retrieval by key. -/
def lookupRow {α : Type} (t : List (String × α)) (id : String) : Option α :=
  (t.find? (fun p => p.1 == id)).map (fun p => p.2)

/-- The relational store: one table per entity kind, each keyed by the `id`
primary-key column. -/
structure Store where
  patients : List (String × PatientRow)
  encounters : List (String × EncounterRow)
  conditions : List (String × ConditionRow)
  diagnostic_reports : List (String × DiagnosticReportRow)
  document_references : List (String × DocumentReferenceRow)
  claims : List (String × ClaimRow)
  explanations_of_benefit : List (String × ExplanationOfBenefitRow)

def emptyStore : Store :=
  ⟨[], [], [], [], [], [], []⟩

/-- The pipeline's `processed_counts` dictionary (src/load_fhir.py:69-77),
one counter per supported resource type. -/
structure Counts where
  patient : Nat := 0
  encounter : Nat := 0
  condition : Nat := 0
  diagnosticReport : Nat := 0
  documentReference : Nat := 0
  claim : Nat := 0
  explanationOfBenefit : Nat := 0
deriving DecidableEq

def zeroCounts : Counts := {}

/-- `resource_type in processed_counts` (the dict's key set). -/
def supported (rt : String) : Bool :=
  rt == "Patient" || rt == "Encounter" || rt == "Condition" ||
  rt == "DiagnosticReport" || rt == "DocumentReference" || rt == "Claim" ||
  rt == "ExplanationOfBenefit"

/-- `processed_counts[resource_type] += 1`. -/
def Counts.bump (c : Counts) (rt : String) : Counts :=
  if rt == "Patient" then { c with patient := c.patient + 1 }
  else if rt == "Encounter" then { c with encounter := c.encounter + 1 }
  else if rt == "Condition" then { c with condition := c.condition + 1 }
  else if rt == "DiagnosticReport" then
    { c with diagnosticReport := c.diagnosticReport + 1 }
  else if rt == "DocumentReference" then
    { c with documentReference := c.documentReference + 1 }
  else if rt == "Claim" then { c with claim := c.claim + 1 }
  else if rt == "ExplanationOfBenefit" then
    { c with explanationOfBenefit := c.explanationOfBenefit + 1 }
  else c

/-- What one dispatched entry does to the store: nothing (unrecognized
type), or insert one extracted row into the matching table. -/
inductive DbAction where
  | skip : DbAction
  | insPatient (r : PatientRow) : DbAction
  | insEncounter (r : EncounterRow) : DbAction
  | insCondition (r : ConditionRow) : DbAction
  | insDiagnosticReport (r : DiagnosticReportRow) : DbAction
  | insDocumentReference (r : DocumentReferenceRow) : DbAction
  | insClaim (r : ClaimRow) : DbAction
  | insExplanationOfBenefit (r : ExplanationOfBenefitRow) : DbAction

/-- The `if/elif` dispatch on `resource_type` (src/load_fhir.py:100-215):
extraction of the matching row, or a skip for the unrecognized types. -/
def dispatch (rt : String) (resource : JVal) : Except Err DbAction :=
  if rt == "Patient" then (extractPatient resource).map .insPatient
  else if rt == "Encounter" then (extractEncounter resource).map .insEncounter
  else if rt == "Condition" then (extractCondition resource).map .insCondition
  else if rt == "DiagnosticReport" then
    (extractDiagnosticReport resource).map .insDiagnosticReport
  else if rt == "DocumentReference" then
    (extractDocumentReference resource).map .insDocumentReference
  else if rt == "Claim" then (extractClaim resource).map .insClaim
  else if rt == "ExplanationOfBenefit" then
    (extractExplanationOfBenefit resource).map .insExplanationOfBenefit
  else .ok .skip

/-- One loop iteration over `bundle['entry']` (src/load_fhir.py:92-215):
`entry['resource']` and `resource['resourceType']` are indexed (KeyError on
absence), the per-type counters are incremented as soon as the type is
recognized — before extraction — and the entry is then dispatched.  A
non-string `resourceType` is never equal to a dict key, so it is skipped
(a dict or list would be unhashable and raise `TypeError`). -/
def entryEval (c f : Counts) (entry : JVal) : Counts × Counts × Except Err DbAction :=
  match pyIndex entry "resource" with
  | .error e => (c, f, .error e)
  | .ok resource =>
    match pyIndex resource "resourceType" with
    | .error e => (c, f, .error e)
    | .ok (.str rt) =>
      (if supported rt then c.bump rt else c,
       if supported rt then f.bump rt else f,
       dispatch rt resource)
    | .ok (.arr _) => (c, f, .error (.typeError "unhashable type"))
    | .ok (.obj _) => (c, f, .error (.typeError "unhashable type"))
    | .ok _ => (c, f, .ok .skip)

/-- The store effect of one dispatched entry's `cur.execute` INSERT. -/
def applyAction (s : Store) : DbAction → Store
  | .skip => s
  | .insPatient r => { s with patients := insertRow s.patients r.id r }
  | .insEncounter r => { s with encounters := insertRow s.encounters r.id r }
  | .insCondition r => { s with conditions := insertRow s.conditions r.id r }
  | .insDiagnosticReport r =>
    { s with diagnostic_reports := insertRow s.diagnostic_reports r.id r }
  | .insDocumentReference r =>
    { s with document_references := insertRow s.document_references r.id r }
  | .insClaim r => { s with claims := insertRow s.claims r.id r }
  | .insExplanationOfBenefit r =>
    { s with explanations_of_benefit :=
        insertRow s.explanations_of_benefit r.id r }

/-- The entry loop of one bundle, on the transaction's working store: stops
at the first exception, returning the counters as they stand then (the
counter dictionaries are mutated in place before the raise). -/
def processEntries (ws : Store) (c f : Counts) :
    List JVal → Store × Counts × Counts × Option Err
  | [] => (ws, c, f, none)
  | e :: es =>
    match entryEval c f e with
    | (c', f', .ok a) => processEntries (applyAction ws a) c' f' es
    | (c', f', .error err) => (ws, c', f', some err)

/-- Result of one bundle: the committed store, the global and per-file
counters, and the exception, if one was raised. -/
structure BundleResult where
  store : Store
  counts : Counts
  fileCounts : Counts
  err : Option Err

/-- One iteration of the file loop (src/load_fhir.py:83-218): index
`bundle['entry']`, run the entry loop on a working store that starts from
the committed store (inside one transaction, earlier uncommitted inserts are
visible to later conflict checks), then `conn.commit()`.  When an exception
is raised the commit is never reached, so the committed store is unchanged
(the transaction is rolled back when the connection closes).  Iterating a
non-list `entry` value is modelled as a `TypeError`. -/
def processBundle (s : Store) (c : Counts) (bundle : JVal) : BundleResult :=
  match pyIndex bundle "entry" with
  | .error e => ⟨s, c, zeroCounts, some e⟩
  | .ok (.arr es) =>
    match processEntries s c zeroCounts es with
    | (ws, c', f', none) => ⟨ws, c', f', none⟩
    | (_, c', f', some e) => ⟨s, c', f', some e⟩
  | .ok _ => ⟨s, c, zeroCounts, some (.typeError "entry not iterable")⟩

/-- End state of a run: the committed store, the final counters, and the
first fatal exception if the run aborted. -/
structure RunResult where
  store : Store
  counts : Counts
  err : Option Err

/-- The bundle loop of `load_fhir_data`, starting from an arbitrary store
state (the database contents persist across program runs): each bundle is
processed and committed in turn; the first exception propagates (it is
re-raised by `__main__`, src/load_fhir.py:256-262), aborting the run with
all previously committed bundles retained. -/
def loadFrom (s : Store) (c : Counts) : List JVal → RunResult
  | [] => ⟨s, c, none⟩
  | b :: bs =>
    let r := processBundle s c b
    match r.err with
    | some e => ⟨r.store, r.counts, some e⟩
    | none => loadFrom r.store r.counts bs

/-- Entry point state: the Python function always starts its counters at
zero; the database contents are whatever the configured database already
holds. -/
def load_fhir_data (dbStart : Store) (bundles : List JVal) : RunResult :=
  loadFrom dbStart zeroCounts bundles

/-- The per-table `SELECT COUNT(*)` results of `validate_data_load`
(src/load_fhir.py:25-29). -/
structure TableCounts where
  patients : Nat
  encounters : Nat
  conditions : Nat
  diagnostic_reports : Nat
  document_references : Nat
  claims : Nat
  explanations_of_benefit : Nat
deriving DecidableEq

def tableCounts (s : Store) : TableCounts :=
  ⟨s.patients.length, s.encounters.length, s.conditions.length,
   s.diagnostic_reports.length, s.document_references.length,
   s.claims.length, s.explanations_of_benefit.length⟩

/-- One `LEFT JOIN patients ... WHERE p.id IS NULL` orphan count: rows of
the child table whose `patient_id` matches no patient primary key (`id` is
the patients' primary key, so each child row joins at most one patient
row). -/
def orphanCount {α : Type} (patients : List (String × PatientRow))
    (t : List (String × α)) (fk : α → String) : Nat :=
  (t.filter (fun r => !(patients.any (fun p => p.1 == fk r.2)))).length

/-- `validate_data_load` (src/load_fhir.py:16-62): computes the seven table
counts (its return value) and runs exactly three orphan probes — encounters,
conditions and diagnostic reports — whose results it only prints.  The
second component records the printed probes, in program order, as
(table, orphan count) pairs. -/
def validate_data_load (s : Store) : TableCounts × List (String × Nat) :=
  (tableCounts s,
   [("encounters", orphanCount s.patients s.encounters (fun r => r.patient_id)),
    ("conditions", orphanCount s.patients s.conditions (fun r => r.patient_id)),
    ("diagnostic_reports",
      orphanCount s.patients s.diagnostic_reports (fun r => r.patient_id))])

/-- The Python return value of `validate_data_load` is the counts dictionary
alone (src/load_fhir.py:62); the orphan numbers are only printed. -/
def validate_return (s : Store) : TableCounts := (validate_data_load s).1

/-- The validation summary of `load_fhir_data` (src/load_fhir.py:230-236):
the `mismatches` list is built by comparing processed and stored counts for
Patient, Encounter and Condition only; each entry is printed as a warning
(its information content: label, processed count, stored count). -/
def countMismatches (processed : Counts) (db : TableCounts) :
    List (String × Nat × Nat) :=
  (if processed.patient != db.patients then
    [("Patients", processed.patient, db.patients)] else []) ++
  (if processed.encounter != db.encounters then
    [("Encounters", processed.encounter, db.encounters)] else []) ++
  (if processed.condition != db.conditions then
    [("Conditions", processed.condition, db.conditions)] else [])

/-- Key set of table `a` is contained in that of table `b`. -/
def subT {α : Type} (a b : List (String × α)) : Prop :=
  ∀ id, hasKey a id = true → hasKey b id = true

/-- Key-set containment, table by table. -/
def storeSub (s t : Store) : Prop :=
  subT s.patients t.patients ∧ subT s.encounters t.encounters ∧
  subT s.conditions t.conditions ∧
  subT s.diagnostic_reports t.diagnostic_reports ∧
  subT s.document_references t.document_references ∧
  subT s.claims t.claims ∧
  subT s.explanations_of_benefit t.explanations_of_benefit

/-- Every row of `a` is still present, unchanged, in `b`. -/
def presT {α : Type} (a b : List (String × α)) : Prop :=
  ∀ id r, lookupRow a id = some r → lookupRow b id = some r

/-- Row preservation, table by table. -/
def storePreserves (s t : Store) : Prop :=
  presT s.patients t.patients ∧ presT s.encounters t.encounters ∧
  presT s.conditions t.conditions ∧
  presT s.diagnostic_reports t.diagnostic_reports ∧
  presT s.document_references t.document_references ∧
  presT s.claims t.claims ∧
  presT s.explanations_of_benefit t.explanations_of_benefit

theorem subT_refl {α : Type} (a : List (String × α)) : subT a a :=
  fun _ h => h

theorem subT_trans {α : Type} {a b c : List (String × α)}
    (h1 : subT a b) (h2 : subT b c) : subT a c :=
  fun id h => h2 id (h1 id h)

theorem storeSub_refl (s : Store) : storeSub s s :=
  ⟨subT_refl _, subT_refl _, subT_refl _, subT_refl _, subT_refl _,
   subT_refl _, subT_refl _⟩

theorem storeSub_trans {s t u : Store} (h1 : storeSub s t)
    (h2 : storeSub t u) : storeSub s u :=
  ⟨subT_trans h1.1 h2.1, subT_trans h1.2.1 h2.2.1,
   subT_trans h1.2.2.1 h2.2.2.1, subT_trans h1.2.2.2.1 h2.2.2.2.1,
   subT_trans h1.2.2.2.2.1 h2.2.2.2.2.1,
   subT_trans h1.2.2.2.2.2.1 h2.2.2.2.2.2.1,
   subT_trans h1.2.2.2.2.2.2 h2.2.2.2.2.2.2⟩

theorem presT_refl {α : Type} (a : List (String × α)) : presT a a :=
  fun _ _ h => h

theorem presT_trans {α : Type} {a b c : List (String × α)}
    (h1 : presT a b) (h2 : presT b c) : presT a c :=
  fun id r h => h2 id r (h1 id r h)

theorem storePreserves_refl (s : Store) : storePreserves s s :=
  ⟨presT_refl _, presT_refl _, presT_refl _, presT_refl _, presT_refl _,
   presT_refl _, presT_refl _⟩

theorem storePreserves_trans {s t u : Store} (h1 : storePreserves s t)
    (h2 : storePreserves t u) : storePreserves s u :=
  ⟨presT_trans h1.1 h2.1, presT_trans h1.2.1 h2.2.1,
   presT_trans h1.2.2.1 h2.2.2.1, presT_trans h1.2.2.2.1 h2.2.2.2.1,
   presT_trans h1.2.2.2.2.1 h2.2.2.2.2.1,
   presT_trans h1.2.2.2.2.2.1 h2.2.2.2.2.2.1,
   presT_trans h1.2.2.2.2.2.2 h2.2.2.2.2.2.2⟩

theorem insertRow_noop {α : Type} {t : List (String × α)} {id : String}
    (r : α) (h : hasKey t id = true) : insertRow t id r = t := by
  unfold hasKey at h
  unfold insertRow
  rw [h]
  rfl

theorem hasKey_insertRow_self {α : Type} (t : List (String × α)) (id : String)
    (r : α) : hasKey (insertRow t id r) id = true := by
  unfold insertRow
  split
  · assumption
  · unfold hasKey
    rw [List.any_append]
    simp

theorem subT_insertRow {α : Type} (t : List (String × α)) (id : String)
    (r : α) : subT t (insertRow t id r) := by
  intro i hi
  unfold insertRow
  split
  · exact hi
  · unfold hasKey at hi ⊢
    rw [List.any_append, hi]
    rfl

theorem presT_insertRow {α : Type} (t : List (String × α)) (id : String)
    (r : α) : presT t (insertRow t id r) := by
  intro i x hx
  unfold insertRow
  split
  · exact hx
  · unfold lookupRow at hx ⊢
    rw [List.find?_append]
    rcases hf : t.find? (fun p => p.1 == i) with _ | p
    · rw [hf] at hx; simp at hx
    · rw [hf] at hx ⊢
      exact hx

/-- The row an action would insert is present (by key) in the store: within
one committed transaction this is what "the insert was executed and
committed" means under `ON CONFLICT DO NOTHING`. -/
def actionDone (s : Store) : DbAction → Prop
  | .skip => True
  | .insPatient r => hasKey s.patients r.id = true
  | .insEncounter r => hasKey s.encounters r.id = true
  | .insCondition r => hasKey s.conditions r.id = true
  | .insDiagnosticReport r => hasKey s.diagnostic_reports r.id = true
  | .insDocumentReference r => hasKey s.document_references r.id = true
  | .insClaim r => hasKey s.claims r.id = true
  | .insExplanationOfBenefit r => hasKey s.explanations_of_benefit r.id = true

theorem storeSub_applyAction (s : Store) (a : DbAction) :
    storeSub s (applyAction s a) := by
  cases a <;>
    exact ⟨by first | exact subT_refl _ | exact subT_insertRow _ _ _,
           by first | exact subT_refl _ | exact subT_insertRow _ _ _,
           by first | exact subT_refl _ | exact subT_insertRow _ _ _,
           by first | exact subT_refl _ | exact subT_insertRow _ _ _,
           by first | exact subT_refl _ | exact subT_insertRow _ _ _,
           by first | exact subT_refl _ | exact subT_insertRow _ _ _,
           by first | exact subT_refl _ | exact subT_insertRow _ _ _⟩

theorem storePreserves_applyAction (s : Store) (a : DbAction) :
    storePreserves s (applyAction s a) := by
  cases a <;>
    exact ⟨by first | exact presT_refl _ | exact presT_insertRow _ _ _,
           by first | exact presT_refl _ | exact presT_insertRow _ _ _,
           by first | exact presT_refl _ | exact presT_insertRow _ _ _,
           by first | exact presT_refl _ | exact presT_insertRow _ _ _,
           by first | exact presT_refl _ | exact presT_insertRow _ _ _,
           by first | exact presT_refl _ | exact presT_insertRow _ _ _,
           by first | exact presT_refl _ | exact presT_insertRow _ _ _⟩

theorem actionDone_applyAction_self (s : Store) (a : DbAction) :
    actionDone (applyAction s a) a := by
  cases a <;> first
    | trivial
    | exact hasKey_insertRow_self _ _ _

theorem actionDone_mono {s t : Store} (hsub : storeSub s t) (a : DbAction)
    (h : actionDone s a) : actionDone t a := by
  cases a with
  | skip => trivial
  | insPatient r => exact hsub.1 _ h
  | insEncounter r => exact hsub.2.1 _ h
  | insCondition r => exact hsub.2.2.1 _ h
  | insDiagnosticReport r => exact hsub.2.2.2.1 _ h
  | insDocumentReference r => exact hsub.2.2.2.2.1 _ h
  | insClaim r => exact hsub.2.2.2.2.2.1 _ h
  | insExplanationOfBenefit r => exact hsub.2.2.2.2.2.2 _ h

theorem applyAction_noop {s : Store} {a : DbAction} (h : actionDone s a) :
    applyAction s a = s := by
  cases a with
  | skip => rfl
  | insPatient r => show { s with patients := _ } = s; rw [insertRow_noop r h]
  | insEncounter r => show { s with encounters := _ } = s; rw [insertRow_noop r h]
  | insCondition r => show { s with conditions := _ } = s; rw [insertRow_noop r h]
  | insDiagnosticReport r =>
    show { s with diagnostic_reports := _ } = s; rw [insertRow_noop r h]
  | insDocumentReference r =>
    show { s with document_references := _ } = s; rw [insertRow_noop r h]
  | insClaim r => show { s with claims := _ } = s; rw [insertRow_noop r h]
  | insExplanationOfBenefit r =>
    show { s with explanations_of_benefit := _ } = s; rw [insertRow_noop r h]

/-- The dispatched action of an entry is independent of the counter state. -/
theorem entryEval_action (c f c' f' : Counts) (e : JVal) :
    (entryEval c f e).2.2 = (entryEval c' f' e).2.2 := by
  unfold entryEval
  cases h1 : pyIndex e "resource" with
  | error e1 => rfl
  | ok resource =>
    cases h2 : pyIndex resource "resourceType" with
    | error e2 => simp [h2]
    | ok rt => cases rt <;> simp [h2]

/-- The dispatched action of an entry, independent of any counter state
(see `entryEval_action`). -/
def entryAction (e : JVal) : Except Err DbAction :=
  (entryEval zeroCounts zeroCounts e).2.2

theorem processEntries_cons_ok {c f c1 f1 : Counts} {e : JVal} {a : DbAction}
    (ws : Store) (es : List JVal) (hev : entryEval c f e = (c1, f1, .ok a)) :
    processEntries ws c f (e :: es) = processEntries (applyAction ws a) c1 f1 es := by
  simp only [processEntries, hev]

theorem processEntries_cons_err {c f c1 f1 : Counts} {e : JVal} {err : Err}
    (ws : Store) (es : List JVal) (hev : entryEval c f e = (c1, f1, .error err)) :
    processEntries ws c f (e :: es) = (ws, c1, f1, some err) := by
  simp only [processEntries, hev]

theorem pe_mono (es : List JVal) : ∀ (ws : Store) (c f : Counts) (ws' : Store)
    (c' f' : Counts), processEntries ws c f es = (ws', c', f', none) →
    storeSub ws ws' := by
  induction es with
  | nil =>
    intro ws c f ws' c' f' h
    simp [processEntries] at h
    obtain ⟨rfl, -, -, -⟩ := h
    exact storeSub_refl _
  | cons e es ih =>
    intro ws c f ws' c' f' h
    rcases hev : entryEval c f e with ⟨c1, f1, r⟩
    cases r with
    | ok a =>
      rw [processEntries_cons_ok ws es hev] at h
      exact storeSub_trans (storeSub_applyAction ws a) (ih _ _ _ _ _ _ h)
    | error err =>
      rw [processEntries_cons_err ws es hev] at h
      simp at h

theorem pe_preserves (es : List JVal) : ∀ (ws : Store) (c f : Counts)
    (ws' : Store) (c' f' : Counts),
    processEntries ws c f es = (ws', c', f', none) → storePreserves ws ws' := by
  induction es with
  | nil =>
    intro ws c f ws' c' f' h
    simp [processEntries] at h
    obtain ⟨rfl, -, -, -⟩ := h
    exact storePreserves_refl _
  | cons e es ih =>
    intro ws c f ws' c' f' h
    rcases hev : entryEval c f e with ⟨c1, f1, r⟩
    cases r with
    | ok a =>
      rw [processEntries_cons_ok ws es hev] at h
      exact storePreserves_trans (storePreserves_applyAction ws a) (ih _ _ _ _ _ _ h)
    | error err =>
      rw [processEntries_cons_err ws es hev] at h
      simp at h

theorem pe_committed (es : List JVal) : ∀ (ws : Store) (c f : Counts)
    (ws' : Store) (c' f' : Counts),
    processEntries ws c f es = (ws', c', f', none) →
    ∀ e ∈ es, ∃ a, entryAction e = .ok a ∧ actionDone ws' a := by
  induction es with
  | nil =>
    intro ws c f ws' c' f' _ e he
    cases he
  | cons e0 es ih =>
    intro ws c f ws' c' f' h e he
    rcases hev : entryEval c f e0 with ⟨c1, f1, r⟩
    cases r with
    | error err =>
      rw [processEntries_cons_err ws es hev] at h
      simp at h
    | ok a0 =>
      rw [processEntries_cons_ok ws es hev] at h
      cases he with
      | head =>
        refine ⟨a0, ?_, ?_⟩
        · show (entryEval zeroCounts zeroCounts e0).2.2 = .ok a0
          rw [entryEval_action zeroCounts zeroCounts c f e0, hev]
        · exact actionDone_mono (pe_mono es _ _ _ _ _ _ h) a0
            (actionDone_applyAction_self ws a0)
      | tail _ ht =>
        exact ih _ _ _ _ _ _ h e ht

theorem pe_replay (es : List JVal) : ∀ (ws : Store) (c f : Counts)
    (ws' : Store) (c' f' : Counts),
    processEntries ws c f es = (ws', c', f', none) →
    ∀ (W : Store) (c2 f2 : Counts), storeSub ws' W →
    ∃ c2' f2', processEntries W c2 f2 es = (W, c2', f2', none) := by
  induction es with
  | nil =>
    intro ws c f ws' c' f' _ W c2 f2 _
    exact ⟨c2, f2, rfl⟩
  | cons e es ih =>
    intro ws c f ws' c' f' h W c2 f2 hsub
    rcases hev : entryEval c f e with ⟨c1, f1, r⟩
    cases r with
    | error err =>
      rw [processEntries_cons_err ws es hev] at h
      simp at h
    | ok a =>
      rw [processEntries_cons_ok ws es hev] at h
      rcases hev2 : entryEval c2 f2 e with ⟨c21, f21, r2⟩
      have hact : r2 = .ok a := by
        have h1 := entryEval_action c2 f2 c f e
        rw [hev, hev2] at h1
        simpa using h1
      subst hact
      have hdone : actionDone W a :=
        actionDone_mono hsub a
          (actionDone_mono (pe_mono es _ _ _ _ _ _ h) a
            (actionDone_applyAction_self ws a))
      rw [processEntries_cons_ok W es hev2, applyAction_noop hdone]
      exact ih _ _ _ _ _ _ h W c21 f21 hsub

theorem processBundle_entry_err {b : JVal} {e : Err} (s : Store) (c : Counts)
    (h : pyIndex b "entry" = .error e) :
    processBundle s c b = ⟨s, c, zeroCounts, some e⟩ := by
  simp only [processBundle, h]

theorem processBundle_entries_ok {b : JVal} {es : List JVal} {ws : Store}
    {c' f' : Counts} (s : Store) (c : Counts)
    (h : pyIndex b "entry" = .ok (.arr es))
    (hpe : processEntries s c zeroCounts es = (ws, c', f', none)) :
    processBundle s c b = ⟨ws, c', f', none⟩ := by
  simp only [processBundle, h, hpe]

theorem processBundle_entries_err {b : JVal} {es : List JVal} {ws : Store}
    {c' f' : Counts} {e : Err} (s : Store) (c : Counts)
    (h : pyIndex b "entry" = .ok (.arr es))
    (hpe : processEntries s c zeroCounts es = (ws, c', f', some e)) :
    processBundle s c b = ⟨s, c', f', some e⟩ := by
  simp only [processBundle, h, hpe]

/-- Inversion: a bundle that raised no exception got its entry list from
`bundle['entry']` and ran the whole entry loop cleanly. -/
theorem processBundle_ok_inv {s : Store} {c : Counts} {b : JVal}
    (h : (processBundle s c b).err = none) :
    ∃ es ws c' f', pyIndex b "entry" = .ok (.arr es) ∧
      processEntries s c zeroCounts es = (ws, c', f', none) ∧
      processBundle s c b = ⟨ws, c', f', none⟩ := by
  cases h1 : pyIndex b "entry" with
  | error e =>
    rw [processBundle_entry_err s c h1] at h
    simp at h
  | ok v =>
    cases v with
    | arr es =>
      rcases hpe : processEntries s c zeroCounts es with ⟨ws, c', f', err?⟩
      cases err? with
      | none =>
        exact ⟨es, ws, c', f', rfl, hpe, processBundle_entries_ok s c h1 hpe⟩
      | some e =>
        rw [processBundle_entries_err s c h1 hpe] at h
        simp at h
    | null => unfold processBundle at h; rw [h1] at h; simp at h
    | bool x => unfold processBundle at h; rw [h1] at h; simp at h
    | num x => unfold processBundle at h; rw [h1] at h; simp at h
    | str x => unfold processBundle at h; rw [h1] at h; simp at h
    | obj x => unfold processBundle at h; rw [h1] at h; simp at h

/-- Atomicity, failure half: a bundle that raised leaves the committed store
exactly as it was. -/
theorem pb_err_store (s : Store) (c : Counts) (b : JVal)
    (herr : (processBundle s c b).err.isSome = true) :
    (processBundle s c b).store = s := by
  cases h1 : pyIndex b "entry" with
  | error e => rw [processBundle_entry_err s c h1]
  | ok v =>
    cases v with
    | arr es =>
      rcases hpe : processEntries s c zeroCounts es with ⟨ws, c', f', err?⟩
      cases err? with
      | none =>
        rw [processBundle_entries_ok s c h1 hpe] at herr
        simp at herr
      | some e => rw [processBundle_entries_err s c h1 hpe]
    | null => unfold processBundle; rw [h1]
    | bool x => unfold processBundle; rw [h1]
    | num x => unfold processBundle; rw [h1]
    | str x => unfold processBundle; rw [h1]
    | obj x => unfold processBundle; rw [h1]

theorem pb_mono {s : Store} {c : Counts} {b : JVal}
    (h : (processBundle s c b).err = none) :
    storeSub s (processBundle s c b).store := by
  obtain ⟨es, ws, c', f', -, hpe, heq⟩ := processBundle_ok_inv h
  rw [heq]
  exact pe_mono es _ _ _ _ _ _ hpe

theorem pb_preserves (s : Store) (c : Counts) (b : JVal) :
    storePreserves s (processBundle s c b).store := by
  cases h1 : pyIndex b "entry" with
  | error e => rw [processBundle_entry_err s c h1]; exact storePreserves_refl s
  | ok v =>
    cases v with
    | arr es =>
      rcases hpe : processEntries s c zeroCounts es with ⟨ws, c', f', err?⟩
      cases err? with
      | none =>
        rw [processBundle_entries_ok s c h1 hpe]
        exact pe_preserves es _ _ _ _ _ _ hpe
      | some e =>
        rw [processBundle_entries_err s c h1 hpe]
        exact storePreserves_refl s
    | null => unfold processBundle; rw [h1]; exact storePreserves_refl s
    | bool x => unfold processBundle; rw [h1]; exact storePreserves_refl s
    | num x => unfold processBundle; rw [h1]; exact storePreserves_refl s
    | str x => unfold processBundle; rw [h1]; exact storePreserves_refl s
    | obj x => unfold processBundle; rw [h1]; exact storePreserves_refl s

theorem pb_replay {s : Store} {c : Counts} {b : JVal} {s' : Store}
    {c' f' : Counts} (h : processBundle s c b = ⟨s', c', f', none⟩)
    (W : Store) (c2 : Counts) (hsub : storeSub s' W) :
    ∃ c2' f2', processBundle W c2 b = ⟨W, c2', f2', none⟩ := by
  have herr : (processBundle s c b).err = none := by rw [h]
  obtain ⟨es, ws, c1, f1, h1, hpe, heq⟩ := processBundle_ok_inv herr
  have hws : ws = s' := by rw [heq] at h; cases h; rfl
  subst hws
  obtain ⟨c2', f2', hpe2⟩ := pe_replay es _ _ _ _ _ _ hpe W c2 zeroCounts hsub
  exact ⟨c2', f2', processBundle_entries_ok W c2 h1 hpe2⟩

theorem loadFrom_cons (s : Store) (c : Counts) (b : JVal) (bs : List JVal) :
    loadFrom s c (b :: bs) =
      match (processBundle s c b).err with
      | some e =>
        ⟨(processBundle s c b).store, (processBundle s c b).counts, some e⟩
      | none =>
        loadFrom (processBundle s c b).store (processBundle s c b).counts bs := rfl

theorem lf_mono (bs : List JVal) : ∀ (s : Store) (c : Counts) (s' : Store)
    (c' : Counts), loadFrom s c bs = ⟨s', c', none⟩ → storeSub s s' := by
  induction bs with
  | nil =>
    intro s c s' c' h
    cases h
    exact storeSub_refl _
  | cons b bs ih =>
    intro s c s' c' h
    rw [loadFrom_cons] at h
    cases herr : (processBundle s c b).err with
    | some e => rw [herr] at h; simp at h
    | none =>
      rw [herr] at h
      exact storeSub_trans (pb_mono herr) (ih _ _ _ _ h)

theorem lf_preserves (bs : List JVal) : ∀ (s : Store) (c : Counts),
    storePreserves s (loadFrom s c bs).store := by
  induction bs with
  | nil => intro s c; exact storePreserves_refl s
  | cons b bs ih =>
    intro s c
    rw [loadFrom_cons]
    cases herr : (processBundle s c b).err with
    | some e =>
      have := pb_preserves s c b
      simpa using this
    | none =>
      exact storePreserves_trans (pb_preserves s c b) (ih _ _)

theorem lf_replay (bs : List JVal) : ∀ (s : Store) (c : Counts) (s' : Store)
    (c' : Counts), loadFrom s c bs = ⟨s', c', none⟩ →
    ∀ (W : Store) (c2 : Counts), storeSub s' W →
    ∃ c2', loadFrom W c2 bs = ⟨W, c2', none⟩ := by
  induction bs with
  | nil =>
    intro s c s' c' h W c2 _
    exact ⟨c2, rfl⟩
  | cons b bs ih =>
    intro s c s' c' h W c2 hsub
    rw [loadFrom_cons] at h
    cases herr : (processBundle s c b).err with
    | some e => rw [herr] at h; simp at h
    | none =>
      rw [herr] at h
      rcases hpb : processBundle s c b with ⟨s1, c1, f1, e1⟩
      have he1 : e1 = none := by rw [hpb] at herr; exact herr
      subst he1
      rw [hpb] at h
      have hsub1 : storeSub s1 s' := lf_mono bs _ _ _ _ h
      obtain ⟨c2', f2', hpb2⟩ :=
        pb_replay hpb W c2 (storeSub_trans hsub1 hsub)
      rw [loadFrom_cons, hpb2]
      exact ih _ _ _ _ h W c2' hsub

theorem except_bind_ok {α β : Type} (a : α) (f : α → Except Err β) :
    (Except.ok a >>= f) = f a := rfl

theorem except_bind_error {α β : Type} (e : Err) (f : α → Except Err β) :
    ((Except.error e : Except Err α) >>= f) = Except.error e := rfl

theorem except_pure {α : Type} (a : α) :
    (pure a : Except Err α) = Except.ok a := rfl

theorem except_map_ok {α β : Type} (g : α → β) (a : α) :
    Except.map g (Except.ok a : Except Err α) = Except.ok (g a) := rfl

theorem except_map_error {α β : Type} (g : α → β) (e : Err) :
    Except.map g (Except.error e : Except Err α) = Except.error e := rfl

theorem except_fmap_ok {α β : Type} (g : α → β) (a : α) :
    (g <$> (Except.ok a : Except Err α)) = Except.ok (g a) := rfl

theorem except_fmap_error {α β : Type} (g : α → β) (e : Err) :
    (g <$> (Except.error e : Except Err α)) = Except.error e := rfl

/-- Canonical identifiers used by the concrete scenarios. -/
def goodPatientId : String := "11111111-2222-3333-4444-555555555555"

def goodCondId : String := "66666666-7777-8888-9999-aaaaaaaaaaaa"

/-- A well-formed Patient resource. -/
def pRes : JVal :=
  .obj [("resourceType", .str "Patient"), ("id", .str goodPatientId),
        ("gender", .str "male"), ("birthDate", .str "1970-01-01")]

/-- The row `extractPatient` produces for `pRes`. -/
def pRow : PatientRow :=
  { id := goodPatientId, resource_id := .null, gender := .str "male",
    birth_date := .str "1970-01-01", deceased_date := none,
    marital_status := .obj [], data := pRes }

example : extractPatient pRes = .ok pRow := rfl

def entryOf (r : JVal) : JVal := .obj [("resource", r)]

def bundleOf (es : List JVal) : JVal := .obj [("entry", .arr es)]

/-- A Condition resource with the given id and subject reference and no
encounter reference. -/
def mkConditionNoEnc (cid pref : String) : JVal :=
  .obj [("resourceType", .str "Condition"), ("id", .str cid),
        ("subject", .obj [("reference", .str pref)])]

/-- A Condition whose mandatory patient reference is malformed. -/
def badCond : JVal := mkConditionNoEnc goodCondId "Patient/not-a-uuid"

example : lastSegment "Patient/not-a-uuid" = "not-a-uuid" := rfl
example : extractCondition badCond = .error (.valueError "not-a-uuid") := rfl

/-- C1.  Persistence is atomic at the bundle boundary: a bundle whose
processing raises leaves the committed store unchanged (zero rows from that
bundle); a bundle that raises no error has every successfully dispatched
entry's row present, by key, in the committed store; and the concrete
mixed bundle — one valid Patient and one Condition with a malformed patient
reference — persists zero rows (the Patient row, inserted into the
transaction's working store, is discarded). -/
theorem c1_bundle_atomicity :
    (∀ (b : JVal) (s : Store) (c : Counts),
        (processBundle s c b).err.isSome = true →
        (processBundle s c b).store = s) ∧
    (∀ (b : JVal) (s : Store) (c : Counts) (es : List JVal),
        pyIndex b "entry" = .ok (.arr es) →
        (processBundle s c b).err = none →
        ∀ e ∈ es, ∃ a, entryAction e = .ok a ∧
          actionDone (processBundle s c b).store a) ∧
    (load_fhir_data emptyStore [bundleOf [entryOf pRes, entryOf badCond]]).store
      = emptyStore := by
  refine ⟨fun b s c h => pb_err_store s c b h, ?_, ?_⟩
  · intro b s c es h1 herr e he
    obtain ⟨es2, ws, c', f', h1b, hpe, heq⟩ := processBundle_ok_inv herr
    rw [h1] at h1b
    injection h1b with h2
    injection h2 with h3
    subst h3
    rw [heq]
    exact pe_committed es _ _ _ _ _ _ hpe e he
  · rfl

/-- Closed instance of `c1_bundle_atomicity`: the mixed bundle raises, and
the first conjunct applied to it yields the unchanged store. -/
theorem c1_bundle_atomicity_witness :
    (processBundle emptyStore zeroCounts
        (bundleOf [entryOf pRes, entryOf badCond])).err.isSome = true ∧
    (processBundle emptyStore zeroCounts
        (bundleOf [entryOf pRes, entryOf badCond])).store = emptyStore :=
  ⟨rfl, c1_bundle_atomicity.1 _ _ _ rfl⟩

/-- C10.  `load_fhir_data` indexes `bundle['entry']`, `entry['resource']`
and `resource['resourceType']` directly: a missing `entry` key raises
`KeyError('entry')` and aborts the run with the store unchanged; a missing
`resource` or `resourceType` key raises the corresponding `KeyError` from
the entry loop; and concretely, a bundle holding a valid Patient entry
followed by an entry without `resource` aborts the run with zero rows
committed (the Patient row is lost with the rolled-back transaction). -/
theorem c10_missing_keys_abort :
    (∀ (fields : List (String × JVal)) (s : Store) (c : Counts)
        (bs : List JVal), lookupField fields "entry" = none →
        processBundle s c (.obj fields) =
          ⟨s, c, zeroCounts, some (.keyError "entry")⟩ ∧
        loadFrom s c (.obj fields :: bs) = ⟨s, c, some (.keyError "entry")⟩) ∧
    (∀ (efields : List (String × JVal)) (c f : Counts),
        lookupField efields "resource" = none →
        entryEval c f (.obj efields) = (c, f, .error (.keyError "resource"))) ∧
    (∀ (rfields : List (String × JVal)) (c f : Counts),
        lookupField rfields "resourceType" = none →
        entryEval c f (.obj [("resource", .obj rfields)]) =
          (c, f, .error (.keyError "resourceType"))) ∧
    load_fhir_data emptyStore [bundleOf [entryOf pRes, .obj []]] =
      ⟨emptyStore, { patient := 1 }, some (.keyError "resource")⟩ := by
  refine ⟨?_, ?_, ?_, ?_⟩
  · intro fields s c bs hf
    have hidx : pyIndex (.obj fields) "entry" = .error (.keyError "entry") := by
      simp [pyIndex, hf]
    refine ⟨processBundle_entry_err s c hidx, ?_⟩
    rw [loadFrom_cons, processBundle_entry_err s c hidx]
  · intro efields c f hf
    have hidx : pyIndex (.obj efields) "resource" =
        .error (.keyError "resource") := by
      simp [pyIndex, hf]
    simp [entryEval, hidx]
  · intro rfields c f hf
    have hidx : pyIndex (.obj rfields) "resourceType" =
        .error (.keyError "resourceType") := by
      simp [pyIndex, hf]
    simp [entryEval, pyIndex, lookupField, hidx, hf]
  · rfl

/-- Closed instance of `c10_missing_keys_abort` at concrete inputs. -/
theorem c10_missing_keys_abort_witness :
    lookupField [] "entry" = none ∧
    processBundle emptyStore zeroCounts (.obj []) =
      ⟨emptyStore, zeroCounts, zeroCounts, some (.keyError "entry")⟩ :=
  ⟨rfl, (c10_missing_keys_abort.1 [] emptyStore zeroCounts [] rfl).1⟩

/-- C3 (amended).  A Condition with a well-formed id and a present but
malformed subject reference makes the bundle raise the uuid `ValueError`
carrying (only) the malformed trailing segment; the bundle is never
committed — the run's store is unchanged — and the run aborts with that
error. -/
theorem c3_mapping_error (cid u pref : String) (s : Store) (c : Counts)
    (h1 : uuidParse cid = some u) (h2 : uuidParse (lastSegment pref) = none) :
    processBundle s c (bundleOf [entryOf (mkConditionNoEnc cid pref)]) =
      ⟨s, c.bump "Condition", zeroCounts.bump "Condition",
        some (.valueError (lastSegment pref))⟩ ∧
    loadFrom s c [bundleOf [entryOf (mkConditionNoEnc cid pref)]] =
      ⟨s, c.bump "Condition", some (.valueError (lastSegment pref))⟩ := by
  have hex : extractCondition (mkConditionNoEnc cid pref) =
      .error (.valueError (lastSegment pref)) := by
    simp [extractCondition, mkConditionNoEnc, mandatoryRef, uuidOf,
      uuidOfSegment, asStr, pyIndex, lookupField, except_bind_ok,
      except_bind_error, h1, h2]
  have hev : entryEval c zeroCounts (entryOf (mkConditionNoEnc cid pref)) =
      (c.bump "Condition", zeroCounts.bump "Condition",
        .error (.valueError (lastSegment pref))) := by
    have hentry : pyIndex (entryOf (mkConditionNoEnc cid pref)) "resource" =
        .ok (mkConditionNoEnc cid pref) := rfl
    have hres : pyIndex (mkConditionNoEnc cid pref) "resourceType" =
        .ok (.str "Condition") := rfl
    simp [entryEval, hentry, hres, supported, dispatch, hex, except_map_error]
  have hpe : processEntries s c zeroCounts [entryOf (mkConditionNoEnc cid pref)] =
      (s, c.bump "Condition", zeroCounts.bump "Condition",
        some (.valueError (lastSegment pref))) :=
    processEntries_cons_err s [] hev
  have hpb := processBundle_entries_err s c
    (b := bundleOf [entryOf (mkConditionNoEnc cid pref)]) rfl hpe
  refine ⟨hpb, ?_⟩
  rw [loadFrom_cons, hpb]

/-- Closed instance of `c3_mapping_error` at the Scenario C reference
`Patient/not-a-uuid`. -/
theorem c3_mapping_error_witness :
    uuidParse goodCondId = some goodCondId ∧
    uuidParse (lastSegment "Patient/not-a-uuid") = none ∧
    processBundle emptyStore zeroCounts (bundleOf [entryOf badCond]) =
      ⟨emptyStore, zeroCounts.bump "Condition", zeroCounts.bump "Condition",
        some (.valueError (lastSegment "Patient/not-a-uuid"))⟩ :=
  ⟨rfl, rfl,
    (c3_mapping_error goodCondId goodCondId "Patient/not-a-uuid" emptyStore
      zeroCounts rfl rfl).1⟩

/-- C3, counterexample to the claim as stated: for the Scenario C bundle the
raised error is exactly `ValueError "not-a-uuid"` — the Python exception is
the `ValueError` of `uuid.UUID`, whose message carries only the malformed
segment; it names neither the source bundle, nor the resource identifier
`goodCondId`, nor the resource type.  (The rollback and abort themselves do
happen: the store is unchanged.) -/
theorem c3_error_context_counterexample :
    (load_fhir_data emptyStore [bundleOf [entryOf badCond]]).err =
      some (.valueError "not-a-uuid") ∧
    (load_fhir_data emptyStore [bundleOf [entryOf badCond]]).store =
      emptyStore :=
  ⟨rfl, rfl⟩

/-- C2.  Loading a bundle set a second time, starting from the store a
successful first load produced, leaves the store identical (same tables,
same rows, no error): every insert is keyed by the entity id and re-insertion
of a present key is a no-op, and rows present before a load are never
mutated by it (first write wins). -/
theorem c2_idempotent_load (bs : List JVal) (s : Store) (c : Counts)
    (s' : Store) (c' : Counts) (h : loadFrom s c bs = ⟨s', c', none⟩) :
    ((loadFrom s' zeroCounts bs).store = s' ∧
      (loadFrom s' zeroCounts bs).err = none) ∧
    storePreserves s s' ∧
    (∀ (α : Type) (t : List (String × α)) (id : String) (r : α),
        hasKey t id = true → insertRow t id r = t) := by
  refine ⟨?_, ?_, fun α t id r hk => insertRow_noop r hk⟩
  · obtain ⟨c2', hrep⟩ := lf_replay bs s c s' c' h s' zeroCounts (storeSub_refl s')
    rw [hrep]
    exact ⟨rfl, rfl⟩
  · have hp := lf_preserves bs s c
    rw [h] at hp
    exact hp

/-- Store after loading the single-Patient bundle into an empty store. -/
def s1 : Store := { emptyStore with patients := [(goodPatientId, pRow)] }

/-- Closed instance of `c2_idempotent_load`: one successful load of the
single-Patient bundle, then the replayed load leaves the store untouched. -/
theorem c2_idempotent_load_witness :
    loadFrom emptyStore zeroCounts [bundleOf [entryOf pRes]] =
      ⟨s1, { patient := 1 }, none⟩ ∧
    (loadFrom s1 zeroCounts [bundleOf [entryOf pRes]]).store = s1 :=
  ⟨rfl,
    ((c2_idempotent_load [bundleOf [entryOf pRes]] emptyStore zeroCounts s1
      { patient := 1 } rfl).1).1⟩

/-- The orphan probe counts exactly the child rows whose patient foreign key
equals no stored patient's primary key. -/
theorem orphanCount_spec {α : Type} (pats : List (String × PatientRow))
    (t : List (String × α)) (fk : α → String) :
    orphanCount pats t fk =
      t.countP (fun r => decide (¬ ∃ q ∈ pats, q.1 = fk r.2)) := by
  unfold orphanCount
  rw [List.countP_eq_length_filter]
  congr 1
  apply List.filter_congr
  intro r _
  rw [Bool.eq_iff_iff]
  simp [List.any_eq_true]
  constructor
  · intro h x hx
    exact h _ _ hx rfl
  · intro h a b hab ha
    subst ha
    exact h b hab

/-- C4 (amended).  The Validator's referential-integrity probes cover
exactly three kinds — Encounter, Condition, DiagnosticReport — each counting
the rows whose patient foreign key matches no stored patient row;
DocumentReference, Claim and ExplanationOfBenefit are never probed. -/
theorem c4_orphan_probes (s : Store) :
    ((validate_data_load s).2 =
      [("encounters", s.encounters.countP
          (fun r => decide (¬ ∃ q ∈ s.patients, q.1 = r.2.patient_id))),
       ("conditions", s.conditions.countP
          (fun r => decide (¬ ∃ q ∈ s.patients, q.1 = r.2.patient_id))),
       ("diagnostic_reports", s.diagnostic_reports.countP
          (fun r => decide (¬ ∃ q ∈ s.patients, q.1 = r.2.patient_id)))]) ∧
    "document_references" ∉ (validate_data_load s).2.map Prod.fst ∧
    "claims" ∉ (validate_data_load s).2.map Prod.fst ∧
    "explanations_of_benefit" ∉ (validate_data_load s).2.map Prod.fst := by
  refine ⟨?_, by simp [validate_data_load], by simp [validate_data_load],
    by simp [validate_data_load]⟩
  unfold validate_data_load
  rw [orphanCount_spec, orphanCount_spec, orphanCount_spec]

/-- A claim row whose patient is not stored. -/
def orphanClaimRow : ClaimRow :=
  { id := "aaaaaaaa-aaaa-aaaa-aaaa-aaaaaaaaaaaa",
    patient_id := "bbbbbbbb-bbbb-bbbb-bbbb-bbbbbbbbbbbb",
    status := .null, type := .obj [], use := .null,
    billable_period_start := none, billable_period_end := none,
    data := .null }

def sOrphanClaim : Store :=
  { emptyStore with claims := [(orphanClaimRow.id, orphanClaimRow)] }

/-- C4, counterexample to the claim as stated: on a store holding one
orphaned claim row (its patient foreign key matches no patient), the
Validator's probes are exactly the three kinds above — `claims` (like
`document_references` and `explanations_of_benefit`) is not probed, although
its orphan count would be 1. -/
theorem c4_probe_coverage_counterexample :
    (validate_data_load sOrphanClaim).2.map Prod.fst =
      ["encounters", "conditions", "diagnostic_reports"] ∧
    "claims" ∉ (validate_data_load sOrphanClaim).2.map Prod.fst ∧
    hasKey sOrphanClaim.patients orphanClaimRow.patient_id = false ∧
    orphanCount sOrphanClaim.patients sOrphanClaim.claims
      (fun r => r.patient_id) = 1 := by
  refine ⟨rfl, ?_, rfl, rfl⟩
  simp [validate_data_load]

theorem mem_if_singleton {γ : Type} {x y : γ} {c : Prop} [Decidable c]
    (h : x ∈ (if c then [y] else [])) : x = y := by
  split at h
  · simpa using h
  · simp at h

/-- C7 (amended).  `validate_data_load` computes and returns the stored row
count of all seven tables, but the processed-vs-stored comparison of the
validation summary covers only Patient, Encounter and Condition: its
`mismatches` list is empty exactly when those three pairs agree, whatever
the other four counters say, and every reported mismatch is labelled with
one of those three kinds.  The mismatch list is data that is printed; it
never raises. -/
theorem c7_validation_summary (p : Counts) (db : TableCounts) (s : Store) :
    (validate_return s =
      ⟨s.patients.length, s.encounters.length, s.conditions.length,
       s.diagnostic_reports.length, s.document_references.length,
       s.claims.length, s.explanations_of_benefit.length⟩) ∧
    (∀ x ∈ countMismatches p db,
        x.1 = "Patients" ∨ x.1 = "Encounters" ∨ x.1 = "Conditions") ∧
    (countMismatches p db = [] ↔
      (p.patient = db.patients ∧ p.encounter = db.encounters ∧
       p.condition = db.conditions)) := by
  refine ⟨rfl, ?_, ?_⟩
  · intro x hx
    unfold countMismatches at hx
    simp only [List.mem_append] at hx
    rcases hx with (h | h) | h
    · have hxe := mem_if_singleton h; subst hxe; simp
    · have hxe := mem_if_singleton h; subst hxe; simp
    · have hxe := mem_if_singleton h; subst hxe; simp
  · unfold countMismatches
    split_ifs with h1 h2 h3 <;> simp_all [bne_iff_ne]

/-- C7, counterexample to the claim as stated: with five processed
DocumentReference resources and an empty store the summary's mismatch list
is empty — the DocumentReference (like DiagnosticReport, Claim,
ExplanationOfBenefit) delta is never compared. -/
theorem c7_comparison_counterexample :
    countMismatches { documentReference := 5 } (tableCounts emptyStore) = [] ∧
    ({ documentReference := 5 } : Counts).documentReference ≠
      (tableCounts emptyStore).document_references :=
  ⟨rfl, by decide⟩

/-- A Patient whose birthDate is not a parseable date. -/
def pBadBirth : JVal :=
  .obj [("resourceType", .str "Patient"), ("id", .str goodPatientId),
        ("birthDate", .str "not-a-date")]

/-- C5, counterexample to the claim as stated: `birthDate` is a date
attribute that is never passed through `parse_fhir_datetime` — an
unparseable value is stored verbatim in the `birth_date` column rather than
becoming null, although the same string nulls out under the lenient
parser. -/
theorem c5_birthdate_counterexample :
    Except.map (fun r : PatientRow => r.birth_date)
      (extractPatient pBadBirth) = .ok (.str "not-a-date") ∧
    fromisoformat "not-a-date" = none ∧
    parse_fhir_datetime (.str "not-a-date") = .ok none :=
  ⟨rfl, rfl, rfl⟩

/-- A Patient carrying only a deceased timestamp (plus mandatory id). -/
def mkPatientDeceased (dt : String) : JVal :=
  .obj [("resourceType", .str "Patient"), ("id", .str goodPatientId),
        ("deceasedDateTime", .str dt)]

/-- An Encounter carrying a period start (plus mandatory id and subject). -/
def mkEncounterStart (dt : String) : JVal :=
  .obj [("resourceType", .str "Encounter"), ("id", .str goodCondId),
        ("subject", .obj [("reference", .str ("Patient/" ++ goodPatientId))]),
        ("period", .obj [("start", .str dt)])]

/-- C5 (amended).  Every date/time attribute that goes through
`parse_fhir_datetime` is parsed leniently: an absent (falsy) value yields
null, a string has each `'Z'` zone marker replaced by `"+00:00"` before
parsing, and a parse failure yields null instead of an exception — so the
extraction of a resource succeeds whatever such a string holds (shown for
Patient.deceasedDateTime and Encounter.period.start).  `birthDate` is
outside this mechanism (see the counterexample). -/
theorem c5_lenient_dates :
    parse_fhir_datetime .null = .ok none ∧
    parse_fhir_datetime (.str "") = .ok none ∧
    (∀ s : String, s ≠ "" →
        parse_fhir_datetime (.str s) =
          .ok (fromisoformat (strReplace s "Z" "+00:00"))) ∧
    (∀ dt : String,
        Except.map (fun r : PatientRow => r.deceased_date)
          (extractPatient (mkPatientDeceased dt)) =
        .ok (if dt = "" then none
             else fromisoformat (strReplace dt "Z" "+00:00"))) ∧
    (∀ dt : String,
        Except.map (fun r : EncounterRow => r.period_start)
          (extractEncounter (mkEncounterStart dt)) =
        .ok (if dt = "" then none
             else fromisoformat (strReplace dt "Z" "+00:00"))) := by
  have hstr : ∀ s : String, s ≠ "" →
      parse_fhir_datetime (.str s) =
        .ok (fromisoformat (strReplace s "Z" "+00:00")) := by
    intro s hs
    have ht : truthy (.str s) = true := by simp [truthy, hs]
    unfold parse_fhir_datetime
    rw [ht]
    simp
  refine ⟨rfl, rfl, hstr, ?_, ?_⟩
  · intro dt
    by_cases hdt : dt = ""
    · subst hdt
      rfl
    · have hid : uuidOf (.str goodPatientId) = .ok goodPatientId := rfl
      have h1 : pyIndex (mkPatientDeceased dt) "id" =
          .ok (.str goodPatientId) := rfl
      have h2 : pyGetD (mkPatientDeceased dt) "identifier"
          (.arr [.obj []]) = .ok (.arr [.obj []]) := rfl
      have h3 : pyGet (.obj ([] : List (String × JVal))) "value" =
          .ok .null := rfl
      have h4 : pyGet (mkPatientDeceased dt) "gender" = .ok .null := rfl
      have h5 : pyGet (mkPatientDeceased dt) "birthDate" = .ok .null := rfl
      have h6 : pyGet (mkPatientDeceased dt) "deceasedDateTime" =
          .ok (.str dt) := rfl
      have h7 : pyGetD (mkPatientDeceased dt) "maritalStatus" (.obj []) =
          .ok (.obj []) := rfl
      simp [extractPatient, h1, h2, h3, h4, h5, h6, h7, hid, pyIndex0,
        hstr dt hdt, except_bind_ok, except_map_ok, except_fmap_ok, hdt]
  · intro dt
    by_cases hdt : dt = ""
    · subst hdt
      rfl
    · have hid : uuidOf (.str goodCondId) = .ok goodCondId := rfl
      have h1 : pyIndex (mkEncounterStart dt) "id" =
          .ok (.str goodCondId) := rfl
      have href : mandatoryRef (mkEncounterStart dt) "subject" =
          .ok goodPatientId := rfl
      have h2 : pyGet (mkEncounterStart dt) "status" = .ok .null := rfl
      have h3 : pyGetD (mkEncounterStart dt) "class" (.obj []) =
          .ok (.obj []) := rfl
      have h4 : pyGetD (mkEncounterStart dt) "type" (.arr [.obj []]) =
          .ok (.arr [.obj []]) := rfl
      have h5 : pyGetD (mkEncounterStart dt) "period" (.obj []) =
          .ok (.obj [("start", .str dt)]) := rfl
      have h6 : pyGet (.obj [("start", .str dt)]) "start" =
          .ok (.str dt) := rfl
      have h7 : pyGet (.obj [("start", .str dt)]) "end" = .ok .null := rfl
      have h8 : parse_fhir_datetime .null = .ok (none : Option String) := rfl
      simp [extractEncounter, h1, href, h2, h3, h4, h5, h6, h7, h8, hid,
        pyIndex0, hstr dt hdt, except_bind_ok, except_map_ok,
        except_fmap_ok, hdt]

/-- Closed instance of `c5_lenient_dates` at a Z-suffixed timestamp. -/
theorem c5_lenient_dates_witness :
    ("2020-01-01T00:00:00Z" : String) ≠ "" ∧
    parse_fhir_datetime (.str "2020-01-01T00:00:00Z") =
      .ok (fromisoformat (strReplace "2020-01-01T00:00:00Z" "Z" "+00:00")) :=
  ⟨by decide, c5_lenient_dates.2.2.1 "2020-01-01T00:00:00Z" (by decide)⟩

/-- An entry of an unrecognized resource type. -/
def unknownEntry : JVal :=
  entryOf (.obj [("resourceType", .str "Medication"), ("id", .str "x")])

/-- C6, counterexample to the claim as stated: a run over a bundle with an
unrecognized entry ends in exactly the same state — same store, same
counters, no error — as the run over the bundle without it: nothing in the
program records how many entries were skipped; no skipped counter exists. -/
theorem c6_no_skipped_counter_counterexample :
    load_fhir_data emptyStore [bundleOf [entryOf pRes, unknownEntry]] =
      load_fhir_data emptyStore [bundleOf [entryOf pRes]] ∧
    (load_fhir_data emptyStore [bundleOf [entryOf pRes, unknownEntry]]).err
      = none :=
  ⟨rfl, rfl⟩

/-- C6 (amended).  An entry whose resourceType string is not one of the
seven supported kinds is not a failure: it is dispatched as a skip, with no
exception, no store effect and no counter change — but it is not counted
either. -/
theorem c6_unknown_skipped (rt : String) (fields : List (String × JVal))
    (c f : Counts) (h : supported rt = false) :
    entryEval c f
      (.obj [("resource", .obj (("resourceType", .str rt) :: fields))]) =
      (c, f, .ok .skip) := by
  have hres : pyIndex (.obj (("resourceType", .str rt) :: fields))
      "resourceType" = .ok (.str rt) := by
    simp [pyIndex, lookupField]
  have hentry : pyIndex
      (.obj [("resource", .obj (("resourceType", .str rt) :: fields))])
      "resource" = .ok (.obj (("resourceType", .str rt) :: fields)) := rfl
  have h' := h
  simp only [supported, Bool.or_eq_false_iff, beq_eq_false_iff_ne] at h'
  obtain ⟨⟨⟨⟨⟨⟨n1, n2⟩, n3⟩, n4⟩, n5⟩, n6⟩, n7⟩ := h'
  simp [entryEval, hentry, hres, h, dispatch, n1, n2, n3, n4, n5, n6, n7]

/-- Closed instance of `c6_unknown_skipped` at resourceType Medication. -/
theorem c6_unknown_skipped_witness :
    supported "Medication" = false ∧
    entryEval zeroCounts zeroCounts
      (.obj [("resource",
        .obj [("resourceType", .str "Medication"), ("id", .str "x")])]) =
      (zeroCounts, zeroCounts, .ok .skip) :=
  ⟨rfl, c6_unknown_skipped "Medication" [("id", .str "x")] zeroCounts
    zeroCounts rfl⟩

/-- C8, counterexample to the claim as stated: for a Condition entry whose
extraction fails (malformed patient reference), the per-type counter is
still incremented — the increment happens on recognizing the type, before
extraction, so the counters count encountered entries of supported types,
not successful extractions. -/
theorem c8_counter_on_failure_counterexample :
    entryEval zeroCounts zeroCounts (entryOf badCond) =
      ({ condition := 1 }, { condition := 1 },
        .error (.valueError "not-a-uuid")) :=
  rfl

/-- C8 (amended).  The per-type counter is incremented exactly when an entry
of that supported type is encountered (before its extraction runs), and the
counters flow out of the bundle unchanged whether the transaction commits or
is rolled back. -/
theorem c8_counters_count_attempts :
    (∀ (rt : String) (fields : List (String × JVal)) (c f : Counts),
        supported rt = true →
        (entryEval c f (.obj [("resource",
          .obj (("resourceType", .str rt) :: fields))])).1 = c.bump rt ∧
        (entryEval c f (.obj [("resource",
          .obj (("resourceType", .str rt) :: fields))])).2.1 = f.bump rt) ∧
    (∀ (s : Store) (c : Counts) (b : JVal) (es : List JVal) (ws : Store)
        (c' f' : Counts) (e? : Option Err),
        pyIndex b "entry" = .ok (.arr es) →
        processEntries s c zeroCounts es = (ws, c', f', e?) →
        (processBundle s c b).counts = c') := by
  constructor
  · intro rt fields c f h
    have hres : pyIndex (.obj (("resourceType", .str rt) :: fields))
        "resourceType" = .ok (.str rt) := by
      simp [pyIndex, lookupField]
    have hentry : pyIndex
        (.obj [("resource", .obj (("resourceType", .str rt) :: fields))])
        "resource" = .ok (.obj (("resourceType", .str rt) :: fields)) := rfl
    constructor <;> simp [entryEval, hentry, hres, h]
  · intro s c b es ws c' f' e? h1 hpe
    cases e? with
    | none => rw [processBundle_entries_ok s c h1 hpe]
    | some e => rw [processBundle_entries_err s c h1 hpe]

/-- Closed instance of `c8_counters_count_attempts`: one Condition entry
bumps the Condition counter. -/
theorem c8_counters_count_attempts_witness :
    supported "Condition" = true ∧
    (entryEval zeroCounts zeroCounts (.obj [("resource",
      .obj (("resourceType", .str "Condition") ::
        [("id", .str "x")]))])).1 = zeroCounts.bump "Condition" :=
  ⟨rfl, (c8_counters_count_attempts.1 "Condition" [("id", .str "x")]
    zeroCounts zeroCounts rfl).1⟩

/-- A Condition with a well-formed id and subject and the given encounter
reference value. -/
def mkCondEnc (enc : JVal) : JVal :=
  .obj [("resourceType", .str "Condition"), ("id", .str goodCondId),
        ("subject", .obj [("reference", .str ("Patient/" ++ goodPatientId))]),
        ("encounter", enc)]

/-- A DiagnosticReport with a well-formed id and subject and the given
encounter reference value. -/
def mkDiagEnc (enc : JVal) : JVal :=
  .obj [("resourceType", .str "DiagnosticReport"), ("id", .str goodCondId),
        ("subject", .obj [("reference", .str ("Patient/" ++ goodPatientId))]),
        ("encounter", enc)]

/-- An ExplanationOfBenefit with a well-formed id and patient and the given
claim reference value. -/
def mkEobClaim (cl : JVal) : JVal :=
  .obj [("resourceType", .str "ExplanationOfBenefit"), ("id", .str goodCondId),
        ("patient", .obj [("reference", .str ("Patient/" ++ goodPatientId))]),
        ("claim", cl)]

/-- C9, counterexample to the claim as stated: a Condition whose `encounter`
reference object is present in the source but **empty** (`{}`) is falsy, so
the guard stores null and extraction succeeds — no exception is raised even
though the inner `reference` string is missing. -/
theorem c9_empty_object_counterexample :
    Except.map (fun r : ConditionRow => r.encounter_id)
      (extractCondition (mkCondEnc (.obj []))) = .ok none :=
  rfl

/-- C9 (amended).  For Condition, DiagnosticReport and
ExplanationOfBenefit, an optional reference object that is present and
truthy (non-empty) but carries no usable `reference` string — the key is
missing, or its value is the empty string — raises the uuid `ValueError` on
the empty string, aborting the bundle; a falsy present object (such as `{}`
or null), like an absent one, is stored as a null foreign key. -/
theorem c9_truthy_empty_reference_fatal :
    (∀ v : JVal, extractCondition (mkCondEnc (.obj [("display", v)])) =
        .error (.valueError "")) ∧
    extractCondition (mkCondEnc (.obj [("reference", .str "")])) =
      .error (.valueError "") ∧
    (∀ v : JVal,
        extractDiagnosticReport (mkDiagEnc (.obj [("display", v)])) =
          .error (.valueError "")) ∧
    extractDiagnosticReport (mkDiagEnc (.obj [("reference", .str "")])) =
      .error (.valueError "") ∧
    (∀ v : JVal,
        extractExplanationOfBenefit (mkEobClaim (.obj [("display", v)])) =
          .error (.valueError "")) ∧
    extractExplanationOfBenefit (mkEobClaim (.obj [("reference", .str "")])) =
      .error (.valueError "") ∧
    Except.map (fun r : ConditionRow => r.encounter_id)
      (extractCondition (mkCondEnc .null)) = .ok none ∧
    (processBundle emptyStore zeroCounts
      (bundleOf [entryOf (mkCondEnc (.obj [("reference", .str "")]))])).store
      = emptyStore :=
  ⟨fun _ => rfl, rfl, fun _ => rfl, rfl, fun _ => rfl, rfl, rfl, rfl⟩

/-- Closed instance of `c4_orphan_probes` at the empty store. -/
theorem c4_orphan_probes_witness :
    (validate_data_load emptyStore).2 =
      [("encounters", 0), ("conditions", 0), ("diagnostic_reports", 0)] ∧
    "claims" ∉ (validate_data_load emptyStore).2.map Prod.fst := by
  have h := c4_orphan_probes emptyStore
  exact ⟨by rw [h.1]; rfl, h.2.2.1⟩

/-- Closed instance of `c7_validation_summary` at empty inputs. -/
theorem c7_validation_summary_witness :
    countMismatches zeroCounts (tableCounts emptyStore) = [] ↔
      (zeroCounts.patient = (tableCounts emptyStore).patients ∧
       zeroCounts.encounter = (tableCounts emptyStore).encounters ∧
       zeroCounts.condition = (tableCounts emptyStore).conditions) :=
  (c7_validation_summary zeroCounts (tableCounts emptyStore) emptyStore).2.2

/-- Closed instance of `c9_truthy_empty_reference_fatal`. -/
theorem c9_truthy_empty_reference_fatal_witness :
    extractCondition (mkCondEnc (.obj [("display", .str "x")])) =
      .error (.valueError "") :=
  c9_truthy_empty_reference_fatal.1 (.str "x")
